import Mathlib

/-!
Shallow embedding of `network_cost_calculator/network_cost_calculator.py`
(class `NetworkCostCalculator`).  Python dictionaries become association
lists with unique keys in insertion order; dictionary mutation becomes
in-place key replacement / append (`dInsert`); Python exceptions become
`Except CalcError`; `process_graph`, which catches every exception and
implicitly returns `None`, becomes `Option`.
-/

namespace NetworkCostCalculator

/-- The edge attribute mapping, restricted to the two keys the calculator
reads: `length` and `material`.  `none` models the key being absent from
the edge data dictionary (Python `dict.get` returning `None`). -/
structure EdgeData where
  length : Option Int := none
  material : Option String := none
deriving DecidableEq, Repr

/-- One route tuple `(start_node, end_node, edge_data)` as produced by
`get_routes`. -/
structure Route where
  start_node : String
  end_node : String
  edge_data : EdgeData
deriving DecidableEq, Repr

/-- The loaded network graph: node ids mapped to their attribute
dictionaries (string-valued GraphML attributes), and the edge list in the
native iteration order of `graph.edges(data=True)`. -/
structure Graph where
  nodes : List (String × List (String × String))
  edges : List Route
deriving DecidableEq, Repr

/-- A rate card: a price-key-to-price dictionary.  The `name` field of the
loaded JSON record plays no role in the cost computation and is dropped. -/
abbrev RateCard := List (String × Int)

/-- Python exceptions the calculator can raise: the `ValueError` from
`calculate_total_cost` for a missing/empty rate card, a `KeyError` from a
direct dictionary subscript, and the `TypeError` from multiplying `None`
by a number in `calculate_route_cost`. -/
inductive CalcError where
  | rateCardNotFound (name : String)
  | keyError (key : String)
  | typeError
deriving DecidableEq, Repr

/-- Python `str(...)` applied to an optional string, as it happens inside
the f-string `f"Trench/m ({edge_data.get('material')})"`: a present value
formats as itself, an absent one as the literal text `None`. -/
def pyFormat : Option String → String
  | some s => s
  | none => "None"

/-- `get_node_type`: `self.graph.nodes[node].get("type", "")`.  The outer
subscript raises `KeyError` when the node id is not in the graph; the
inner `get` defaults to the empty string. -/
def get_node_type (graph : Graph) (node : String) : Except CalcError String :=
  match graph.nodes.lookup node with
  | none => .error (.keyError node)
  | some attrs => .ok ((attrs.lookup "type").getD "")

/-- `get_node_price`: `rate_card.get(node_type, 0)`. -/
def get_node_price (rate_card : RateCard) (node_type : String) : Int :=
  (rate_card.lookup node_type).getD 0

/-- `calculate_route_cost`: resolves both endpoint node types to prices
(each endpoint lookup can raise `KeyError`), then returns
`start_node_price + edge_data.get("length") * rate_card.get(f"Trench/m ({edge_data.get('material')})", 0) + end_node_price`.
A missing `length` makes the multiplication raise `TypeError`
(`None * number`); a missing `material` merely makes the trench key the
string `Trench/m (None)`, whose lookup defaults to `0`. -/
def calculate_route_cost (graph : Graph) (rate_card : RateCard) (route : Route) :
    Except CalcError Int := do
  let start_type ← get_node_type graph route.start_node
  let end_type ← get_node_type graph route.end_node
  let start_node_price := get_node_price rate_card start_type
  let end_node_price := get_node_price rate_card end_type
  match route.edge_data.length with
  | none => .error .typeError
  | some len =>
      .ok (start_node_price
        + len * (rate_card.lookup
            ("Trench/m (" ++ pyFormat route.edge_data.material ++ ")")).getD 0
        + end_node_price)

/-- The per-route record `{"length": ..., "material": ..., "cost": ...}`
stored by `add_route_to_results`. -/
structure RouteRecord where
  length : Int
  material : String
  cost : Int
deriving DecidableEq, Repr

/-- A value of the inner per-rate-card dictionary: either a per-route
record or the `..._routes_total` number. -/
inductive FragmentEntry where
  | route (record : RouteRecord)
  | total (value : Int)
deriving DecidableEq, Repr

/-- The inner dictionary under one `rate_card_<name>` key. -/
abbrev Fragment := List (String × FragmentEntry)

/-- The nested result dictionary returned by `calculate_total_cost` and
`process_graph`. -/
abbrev Results := List (String × Fragment)

/-- Python dictionary assignment `d[k] = v`: replace the value in place if
the key is present, append otherwise. -/
def dInsert {α : Type} : List (String × α) → String → α → List (String × α)
  | [], k, v => [(k, v)]
  | (k0, v0) :: rest, k, v =>
      if k0 = k then (k0, v) :: rest else (k0, v0) :: dInsert rest k v

/-- Python `base.update(new)`: assign every key of `new` into `base` in
order. -/
def dUpdate {α : Type} (base new : List (String × α)) : List (String × α) :=
  new.foldl (fun acc kv => dInsert acc kv.1 kv.2) base

/-- `add_route_to_results`: inserts
`results[results_key][f"route_{start}--{end}"] = {"length": edge_data["length"], "material": edge_data["material"], "cost": route_cost}`,
first creating `results[results_key]` if absent.  The two direct
subscripts raise `KeyError` when the corresponding edge attribute is
missing (`length` is subscripted first). -/
def add_route_to_results (results : Results) (results_key : String)
    (route : Route) (route_cost : Int) : Except CalcError Results :=
  match route.edge_data.length, route.edge_data.material with
  | some len, some mat =>
      let inner := (results.lookup results_key).getD []
      .ok (dInsert results results_key
        (dInsert inner ("route_" ++ route.start_node ++ "--" ++ route.end_node)
          (.route ⟨len, mat, route_cost⟩)))
  | none, _ => .error (.keyError "length")
  | some _, none => .error (.keyError "material")

/-- `get_routes`: lists every edge of the graph, in native edge-iteration
order, as a route tuple. -/
def get_routes (graph : Graph) : List Route := graph.edges

/-- The calculator state after loading: the graph and the mapping from
normalized rate-card name to rate card. -/
structure Calculator where
  graph : Graph
  rate_cards : List (String × RateCard)
deriving DecidableEq, Repr

/-- Sequencing of a fallible computation over a list; models both the
`asyncio.gather` over per-route cost tasks (the first raised exception
propagates) and iteration that stops at the first exception. -/
def mapE {α β : Type} (f : α → Except CalcError β) :
    List α → Except CalcError (List β)
  | [] => .ok []
  | a :: rest => do
      let b ← f a
      let bs ← mapE f rest
      .ok (b :: bs)

/-- The second pass of `calculate_total_cost`: for each route, recompute
its cost and add it to the results via `add_route_to_results`. -/
def routes_loop (graph : Graph) (rate_card : RateCard) (results_key : String) :
    List Route → Results → Except CalcError Results
  | [], results => .ok results
  | route :: rest, results => do
      let route_cost ← calculate_route_cost graph rate_card route
      let results1 ← add_route_to_results results results_key route route_cost
      routes_loop graph rate_card results_key rest results1

/-- `calculate_total_cost`: looks the rate card up by name and raises the
not-found `ValueError` when `self.rate_cards.get(rate_card_name)` is falsy
(absent key or empty dictionary); computes every route cost concurrently
and sums them into `total_cost`; then sequentially rebuilds each route
cost and records it under `results[f"rate_card_{rate_card_name}"]`; and
finally stores `total_cost` under the `..._routes_total` key. -/
def calculate_total_cost (calculator : Calculator) (rate_card_name : String) :
    Except CalcError Results :=
  match calculator.rate_cards.lookup rate_card_name with
  | none => .error (.rateCardNotFound rate_card_name)
  | some rate_card =>
      if rate_card.isEmpty then .error (.rateCardNotFound rate_card_name)
      else do
        let route_costs ←
          mapE (calculate_route_cost calculator.graph rate_card) (get_routes calculator.graph)
        let total_cost := route_costs.sum
        let results_key := "rate_card_" ++ rate_card_name
        let results0 := dInsert ([] : Results) results_key []
        let results1 ←
          routes_loop calculator.graph rate_card results_key (get_routes calculator.graph) results0
        let inner := (results1.lookup results_key).getD []
        .ok (dInsert results1 results_key
          (dInsert inner (results_key ++ "_routes_total") (.total total_cost)))

/-- The loop body of `process_graph`: iterate the loaded rate-card names
in order, merging each fragment into the accumulated results with
`results.update(...)`; the surrounding `except Exception` clause turns the
first raised exception into an implicit `return None`. -/
def process_graph_loop (calculator : Calculator) :
    List String → Results → Option Results
  | [], results => some results
  | name :: rest, results =>
      match calculate_total_cost calculator name with
      | .error _ => none
      | .ok fragment => process_graph_loop calculator rest (dUpdate results fragment)

/-- `process_graph`: computes `calculate_total_cost` for every loaded
rate-card name and merges the fragments; any exception is caught, logged
and swallowed, making the coroutine return `None`. -/
def process_graph (calculator : Calculator) : Option Results :=
  process_graph_loop calculator (calculator.rate_cards.map Prod.fst) []

/-- The concrete graph of the repository's test fixture: node `A` of type
`Cabinet`, node `B` of type `Pot`, one edge `A--B` with length `50` and
material `verge`; plus a node `C` carrying no attributes. -/
def exGraph : Graph :=
  { nodes := [("A", [("type", "Cabinet")]), ("B", [("type", "Pot")]), ("C", [])]
    edges := [{ start_node := "A", end_node := "B"
                edge_data := { length := some 50, material := some "verge" } }] }

/-- The concrete rate card of the claims: `Cabinet` at 1000, `Pot` at 100,
`Trench/m (verge)` at 50. -/
def exRateCard : RateCard :=
  [("Cabinet", 1000), ("Pot", 100), ("Trench/m (verge)", 50)]

/-- A calculator loaded with `exGraph` and `exRateCard`. -/
def exCalculator : Calculator :=
  { graph := exGraph, rate_cards := [("rate_card_a", exRateCard)] }

/-- C1: for a route whose edge data carries both `length` and `material`
and whose endpoints are nodes of the graph, `calculate_route_cost` returns
the start node price plus `length` times the trench rate for the material
plus the end node price, with absent price-table lookups defaulting to 0. -/
theorem c1_route_cost_formula (graph : Graph) (rate_card : RateCard)
    (route : Route) (start_attrs end_attrs : List (String × String))
    (len : Int) (mat : String)
    (hs : graph.nodes.lookup route.start_node = some start_attrs)
    (he : graph.nodes.lookup route.end_node = some end_attrs)
    (hlen : route.edge_data.length = some len)
    (hmat : route.edge_data.material = some mat) :
    calculate_route_cost graph rate_card route =
      .ok (get_node_price rate_card ((start_attrs.lookup "type").getD "")
        + len * (rate_card.lookup ("Trench/m (" ++ mat ++ ")")).getD 0
        + get_node_price rate_card ((end_attrs.lookup "type").getD "")) := by
  simp [calculate_route_cost, get_node_type, hs, he, hlen, hmat, pyFormat,
    Bind.bind, Except.bind]

/-- C1 witness: the concrete scenario, node `A` of type `Cabinet`, node
`B` of type `Pot`, edge of length 50 and material `verge`, rate card
`{Cabinet: 1000, Pot: 100, Trench/m (verge): 50}`, costs
`1000 + 50 * 50 + 100 = 3600`. -/
theorem c1_route_cost_formula_witness :
    calculate_route_cost exGraph exRateCard
      { start_node := "A", end_node := "B"
        edge_data := { length := some 50, material := some "verge" } } =
      .ok 3600 := by
  have h := c1_route_cost_formula exGraph exRateCard
    { start_node := "A", end_node := "B"
      edge_data := { length := some 50, material := some "verge" } }
    [("type", "Cabinet")] [("type", "Pot")] 50 "verge" rfl rfl rfl rfl
  exact h.trans (by rfl)

/-- C2: the per-route computation performed by `calculate_total_cost` —
`calculate_route_cost` feeding `add_route_to_results` — raises an
exception instead of producing a result whenever the edge attribute
mapping is missing `length` or missing `material`, each key independently.
(A missing `length` already raises inside `calculate_route_cost`, the
`TypeError` of `None * rate`; a missing `material` passes
`calculate_route_cost` as the unpriced key `Trench/m (None)` but raises a
`KeyError` in `add_route_to_results`.) -/
theorem c2_missing_edge_attr_fails (graph : Graph) (rate_card : RateCard)
    (results : Results) (results_key : String) (route : Route)
    (h : route.edge_data.length = none ∨ route.edge_data.material = none) :
    ∃ e, (calculate_route_cost graph rate_card route >>= fun route_cost =>
            add_route_to_results results results_key route route_cost) =
          .error e := by
  cases hc : calculate_route_cost graph rate_card route with
  | error e => exact ⟨e, by simp [Bind.bind, Except.bind, hc]⟩
  | ok c =>
      rcases h with hl | hm
      · exact ⟨.keyError "length", by
          simp [Bind.bind, Except.bind, hc, add_route_to_results, hl]⟩
      · cases hl : route.edge_data.length with
        | none => exact ⟨.keyError "length", by
            simp [Bind.bind, Except.bind, hc, add_route_to_results, hl]⟩
        | some len => exact ⟨.keyError "material", by
            simp [Bind.bind, Except.bind, hc, add_route_to_results, hl, hm]⟩

/-- C2 witness: on the concrete graph, a route `A--B` whose edge data
lacks `material` makes the per-route pipeline raise, and so does one
lacking `length`. -/
theorem c2_missing_edge_attr_fails_witness :
    (∃ e, (calculate_route_cost exGraph exRateCard
            { start_node := "A", end_node := "B"
              edge_data := { length := some 50, material := none } } >>=
            fun route_cost =>
              add_route_to_results [] "rate_card_rate_card_a"
                { start_node := "A", end_node := "B"
                  edge_data := { length := some 50, material := none } }
                route_cost) = .error e)
    ∧ (∃ e, (calculate_route_cost exGraph exRateCard
            { start_node := "A", end_node := "B"
              edge_data := { length := none, material := some "verge" } } >>=
            fun route_cost =>
              add_route_to_results [] "rate_card_rate_card_a"
                { start_node := "A", end_node := "B"
                  edge_data := { length := none, material := some "verge" } }
                route_cost) = .error e) :=
  ⟨c2_missing_edge_attr_fails exGraph exRateCard [] "rate_card_rate_card_a"
      _ (Or.inr rfl),
    c2_missing_edge_attr_fails exGraph exRateCard [] "rate_card_rate_card_a"
      _ (Or.inl rfl)⟩

/-- C3: price-table lookups are permissive.  `get_node_price` returns the
stored price when the node-type key is present and `0` when it is absent
(it is a total function, so it never raises); and for a route whose
material has no `Trench/m (...)` entry in the rate card, the trench term
contributes `0`, so `calculate_route_cost` returns just the sum of the two
endpoint node prices instead of failing. -/
theorem c3_permissive_price_lookups (rate_card : RateCard) (node_type : String) :
    ((∀ p, rate_card.lookup node_type = some p →
        get_node_price rate_card node_type = p)
      ∧ (rate_card.lookup node_type = none →
        get_node_price rate_card node_type = 0))
    ∧ (∀ (graph : Graph) (route : Route)
        (start_attrs end_attrs : List (String × String)) (len : Int) (mat : String),
        graph.nodes.lookup route.start_node = some start_attrs →
        graph.nodes.lookup route.end_node = some end_attrs →
        route.edge_data.length = some len →
        route.edge_data.material = some mat →
        rate_card.lookup ("Trench/m (" ++ mat ++ ")") = none →
        calculate_route_cost graph rate_card route =
          .ok (get_node_price rate_card ((start_attrs.lookup "type").getD "")
            + get_node_price rate_card ((end_attrs.lookup "type").getD ""))) := by
  refine ⟨⟨fun p hp => ?_, fun hn => ?_⟩,
    fun graph route start_attrs end_attrs len mat hs he hlen hmat htr => ?_⟩
  · simp [get_node_price, hp]
  · simp [get_node_price, hn]
  · simp [calculate_route_cost, get_node_type, hs, he, hlen, hmat, pyFormat,
      Bind.bind, Except.bind, htr]

/-- C3 witness: the node type `Chamber` is absent from the concrete rate
card and prices at `0`, and the material `road` is unpriced, so the
concrete route `A--B` over `road` costs `1000 + 100 = 1100`. -/
theorem c3_permissive_price_lookups_witness :
    get_node_price exRateCard "Chamber" = 0
    ∧ calculate_route_cost exGraph exRateCard
        { start_node := "A", end_node := "B"
          edge_data := { length := some 7, material := some "road" } } =
      .ok 1100 :=
  ⟨(c3_permissive_price_lookups exRateCard "Chamber").1.2 rfl,
    ((c3_permissive_price_lookups exRateCard "Chamber").2 exGraph
      { start_node := "A", end_node := "B"
        edge_data := { length := some 7, material := some "road" } }
      [("type", "Cabinet")] [("type", "Pot")] 7 "road"
      rfl rfl rfl rfl rfl).trans (by rfl)⟩

/-- C4: on a graph with zero edges, `calculate_total_cost` for a loaded
(non-empty) rate card returns a fragment whose single inner mapping under
`rate_card_<name>` holds exactly one entry, the key
`rate_card_<name>_routes_total` with value `0`, and no per-route
entries. -/
theorem c4_empty_graph_total_zero (calculator : Calculator)
    (rate_card_name : String) (rate_card : RateCard)
    (hedges : calculator.graph.edges = [])
    (hfound : calculator.rate_cards.lookup rate_card_name = some rate_card)
    (hnonempty : rate_card ≠ []) :
    calculate_total_cost calculator rate_card_name =
      .ok [("rate_card_" ++ rate_card_name,
        [("rate_card_" ++ rate_card_name ++ "_routes_total",
          .total 0)])] := by
  have hne : rate_card.isEmpty = false := by
    cases rate_card with
    | nil => exact absurd rfl hnonempty
    | cons p rest => rfl
  unfold calculate_total_cost
  rw [hfound]
  simp [hne, get_routes, hedges, mapE, routes_loop, dInsert,
    Bind.bind, Except.bind, List.lookup]

/-- C4 witness: a calculator whose graph has no edges yields, for the
loaded rate card `rate_card_a`, only the `_routes_total` key with
value `0`. -/
theorem c4_empty_graph_total_zero_witness :
    calculate_total_cost
      { graph := { nodes := exGraph.nodes, edges := [] }
        rate_cards := [("rate_card_a", exRateCard)] } "rate_card_a" =
      .ok [("rate_card_rate_card_a",
        [("rate_card_rate_card_a_routes_total", .total 0)])] := by
  have h := c4_empty_graph_total_zero
    { graph := { nodes := exGraph.nodes, edges := [] }
      rate_cards := [("rate_card_a", exRateCard)] }
    "rate_card_a" exRateCard rfl rfl (by simp [exRateCard])
  exact h.trans (by rfl)

/-- C5: requesting a rate-card name that is not a key of the loaded
rate-card mapping makes `calculate_total_cost` raise the not-found
`ValueError`; no partial result is produced (the computation yields only
the error, never a results dictionary). -/
theorem c5_rate_card_not_found (calculator : Calculator)
    (rate_card_name : String)
    (habsent : calculator.rate_cards.lookup rate_card_name = none) :
    calculate_total_cost calculator rate_card_name =
      .error (.rateCardNotFound rate_card_name) := by
  unfold calculate_total_cost
  rw [habsent]

/-- C5 witness: the concrete calculator has no rate card named
`rate_card_b`, so requesting it fails with the not-found error. -/
theorem c5_rate_card_not_found_witness :
    calculate_total_cost exCalculator "rate_card_b" =
      .error (.rateCardNotFound "rate_card_b") :=
  c5_rate_card_not_found exCalculator "rate_card_b" rfl

/-- C10: a rate-card name that is present in the loaded mapping but maps
to an empty rate card fails with the same not-found `ValueError` as an
absent name, because `calculate_total_cost` tests the truthiness of
`self.rate_cards.get(rate_card_name)` rather than key membership. -/
theorem c10_empty_rate_card_not_found (calculator : Calculator)
    (rate_card_name : String)
    (hempty : calculator.rate_cards.lookup rate_card_name = some []) :
    calculate_total_cost calculator rate_card_name =
      .error (.rateCardNotFound rate_card_name) := by
  unfold calculate_total_cost
  rw [hempty]
  rfl

/-- C10 witness: a calculator holding the name `rate_card_empty` with an
empty rate card record fails with the not-found error for that name. -/
theorem c10_empty_rate_card_not_found_witness :
    calculate_total_cost
      { graph := exGraph, rate_cards := [("rate_card_empty", [])] }
      "rate_card_empty" =
      .error (.rateCardNotFound "rate_card_empty") :=
  c10_empty_rate_card_not_found
    { graph := exGraph, rate_cards := [("rate_card_empty", [])] }
    "rate_card_empty" rfl

/-- A second rate card, as in the repository's test fixture
(`Rate Card B`). -/
def exRateCardB : RateCard :=
  [("Cabinet", 1200), ("Pot", 20), ("Trench/m (verge)", 40)]

/-- A calculator loaded with two rate cards. -/
def exCalculatorTwo : Calculator :=
  { graph := exGraph
    rate_cards := [("rate_card_a", exRateCard), ("rate_card_b", exRateCardB)] }

/-- A calculator whose second loaded rate card is the empty mapping, so
its computation raises inside `process_graph`. -/
def exCalculatorBad : Calculator :=
  { graph := exGraph
    rate_cards := [("rate_card_a", exRateCard), ("rate_card_bad", [])] }

/-- Helper for C6: when every per-name `calculate_total_cost` succeeds,
the `process_graph` loop returns the fragments merged (via `update`) into
the accumulator, in order. -/
theorem process_graph_loop_eq (calculator : Calculator) :
    ∀ (names : List String) (fragments : List Results) (acc : Results),
      mapE (calculate_total_cost calculator) names = .ok fragments →
      process_graph_loop calculator names acc =
        some (fragments.foldl dUpdate acc) := by
  intro names
  induction names with
  | nil =>
      intro fragments acc h
      simp [mapE] at h
      subst h
      simp [process_graph_loop]
  | cons n0 rest ih =>
      intro fragments acc h
      cases hc : calculate_total_cost calculator n0 with
      | error e => simp [mapE, hc, Bind.bind, Except.bind] at h
      | ok frag =>
          cases hr : mapE (calculate_total_cost calculator) rest with
          | error e => simp [mapE, hc, hr, Bind.bind, Except.bind] at h
          | ok frags =>
              simp [mapE, hc, hr, Bind.bind, Except.bind] at h
              subst h
              simp [process_graph_loop, hc, List.foldl_cons]
              exact ih frags (dUpdate acc frag) hr

/-- C6: when no individual rate-card computation fails, `process_graph`
returns exactly the fragments of `calculate_total_cost` invoked
individually for each loaded rate-card name, merged over their (disjoint)
top-level keys via dictionary update. -/
theorem c6_process_graph_is_union (calculator : Calculator)
    (fragments : List Results)
    (h : mapE (calculate_total_cost calculator)
          (calculator.rate_cards.map Prod.fst) = .ok fragments) :
    process_graph calculator = some (fragments.foldl dUpdate []) :=
  process_graph_loop_eq calculator _ fragments [] h

/-- C6 witness: with two loaded rate cards, `process_graph` is the merge
of the two individually computed fragments (`3600` for the first card,
`1200 + 50 * 40 + 20 = 3220` for the second). -/
theorem c6_process_graph_is_union_witness :
    process_graph exCalculatorTwo =
      some (List.foldl dUpdate []
        [[("rate_card_rate_card_a",
            [("route_A--B", .route ⟨50, "verge", 3600⟩),
             ("rate_card_rate_card_a_routes_total", .total 3600)])],
         [("rate_card_rate_card_b",
            [("route_A--B", .route ⟨50, "verge", 3220⟩),
             ("rate_card_rate_card_b_routes_total", .total 3220)])]]) :=
  c6_process_graph_is_union exCalculatorTwo _ rfl

/-- Helper for C7: if any listed name's `calculate_total_cost` raises,
the `process_graph` loop returns `none`, whatever had accumulated. -/
theorem process_graph_loop_none (calculator : Calculator) :
    ∀ (names : List String) (acc : Results),
      (∃ n ∈ names, ∃ e, calculate_total_cost calculator n = .error e) →
      process_graph_loop calculator names acc = none := by
  intro names
  induction names with
  | nil =>
      intro acc h
      simp at h
  | cons n0 rest ih =>
      intro acc h
      cases hc : calculate_total_cost calculator n0 with
      | error e => simp [process_graph_loop, hc]
      | ok frag =>
          rw [process_graph_loop, hc]
          apply ih
          rcases h with ⟨n, hn, e, he⟩
          rcases List.mem_cons.mp hn with rfl | hmem
          · rw [hc] at he
            cases he
          · exact ⟨n, hmem, e, he⟩

/-- C7 counterexample: with a loaded rate card whose computation raises
(the empty `rate_card_bad`), `process_graph` returns `None` — not a
partial or empty result mapping — even though another rate card's fragment
had already been computed. -/
theorem c7_counterexample :
    calculate_total_cost exCalculatorBad "rate_card_bad" =
      .error (.rateCardNotFound "rate_card_bad")
    ∧ process_graph exCalculatorBad = none :=
  ⟨rfl, rfl⟩

/-- C7 amended: if any loaded rate-card name's computation inside
`process_graph` raises an error, `process_graph` does not propagate it: it
is caught (and logged) and the call returns `None` — no result mapping at
all, discarding any fragments already computed. -/
theorem c7_error_swallowed_returns_none (calculator : Calculator)
    (rate_card_name : String) (e : CalcError)
    (hmem : rate_card_name ∈ calculator.rate_cards.map Prod.fst)
    (herr : calculate_total_cost calculator rate_card_name = .error e) :
    process_graph calculator = none :=
  process_graph_loop_none calculator _ [] ⟨rate_card_name, hmem, e, herr⟩

/-- C7 witness: the amended statement at the concrete calculator with the
empty `rate_card_bad`. -/
theorem c7_error_swallowed_returns_none_witness :
    process_graph exCalculatorBad = none :=
  c7_error_swallowed_returns_none exCalculatorBad "rate_card_bad"
    (.rateCardNotFound "rate_card_bad") (by simp [exCalculatorBad]) rfl

/-- C8: the total-cost computation is deterministic — two invocations of
`calculate_total_cost` on the same unmodified graph and rate-card mapping
return identical result structures.  (In the embedding the thread-pool
pass is value-deterministic: `asyncio.gather` preserves task order, so the
total is a pure function of the inputs.) -/
theorem c8_total_cost_deterministic (a b : Calculator) (rate_card_name : String)
    (hg : a.graph = b.graph) (hrc : a.rate_cards = b.rate_cards) :
    calculate_total_cost a rate_card_name =
      calculate_total_cost b rate_card_name := by
  cases a
  cases b
  cases hg
  cases hrc
  rfl

/-- C8 witness: two invocations on the same concrete calculator state
agree. -/
theorem c8_total_cost_deterministic_witness :
    calculate_total_cost exCalculator "rate_card_a" =
      calculate_total_cost
        { graph := exGraph, rate_cards := [("rate_card_a", exRateCard)] }
        "rate_card_a" :=
  c8_total_cost_deterministic exCalculator
    { graph := exGraph, rate_cards := [("rate_card_a", exRateCard)] }
    "rate_card_a" rfl rfl

/-- C9 counterexample: `get_node_type` is not total over arbitrary node
ids — for the id `Z`, absent from the concrete graph, the subscript
`self.graph.nodes[node]` raises a `KeyError` instead of returning a
string. -/
theorem c9_counterexample :
    get_node_type exGraph "Z" = .error (.keyError "Z") := rfl

/-- C9 amended: for every node id present in the graph, `get_node_type`
returns the node's `type` attribute, or the empty string when that
attribute is unset, and never fails; for a node id not in the graph it
raises a `KeyError`. -/
theorem c9_node_type_on_members (graph : Graph) (node : String)
    (attrs : List (String × String))
    (h : graph.nodes.lookup node = some attrs) :
    get_node_type graph node = .ok ((attrs.lookup "type").getD "") := by
  unfold get_node_type
  rw [h]

/-- C9 witness: node `A` has type `Cabinet`; node `C`, which carries no
`type` attribute, yields the empty string. -/
theorem c9_node_type_on_members_witness :
    get_node_type exGraph "A" = .ok "Cabinet"
    ∧ get_node_type exGraph "C" = .ok "" :=
  ⟨(c9_node_type_on_members exGraph "A" [("type", "Cabinet")] rfl).trans rfl,
    (c9_node_type_on_members exGraph "C" [] rfl).trans rfl⟩

end NetworkCostCalculator
